import Mathlib

/-
Verification of the MINKE map editor's placement-validity and
timeline-consistency core (src/src/app.rs, src/src/models.rs,
src/src/utils.rs).  The editor state is shallowly embedded: rendering,
camera, file-dialog and icon fields are omitted (they never feed back into
the placement, timeline or layer logic), machine integers i32 are modelled
as Int wrapped into [-2^31, 2^31) where the code computes with them, usize
as Nat, and the two partial operations of the code (the unchecked HashMap
lookup `layers_data.get(..).unwrap()` and slice indexing) are modelled with
Option, none standing for the panic.
-/

/-- Two's-complement wrap of an Int into the i32 range, the behaviour of
Rust release-mode i32 arithmetic. -/
def i32wrap (x : Int) : Int := (x + 2147483648) % 4294967296 - 2147483648

/-- The i32::MAX sentinel used by get_building_demolish_time. -/
def i32max : Int := 2147483647

/-- utils.rs get_time_value: wave * 2 + (is_late ? 1 : 0), in i32. -/
def get_time_value (wave : Int) (late : Bool) : Int :=
  i32wrap (wave * 2 + if late then 1 else 0)

/-- models.rs BuildingType. -/
inductive BuildingType
  | Floor
  | Wall
  | Ceiling
deriving DecidableEq

/-- models.rs LayerData: the three per-category elevation grids plus the
legacy single grid kept only for migration.  Cells are i8 elevation codes,
modelled as Int (the code only compares them, never computes). -/
structure LayerData where
  major_z : Int
  name : String
  floor_grid : List (List Int)
  wall_grid : List (List Int)
  ceiling_grid : List (List Int)
  elevation_grid : Option (List (List Int))
deriving DecidableEq

/-- models.rs LayerData::get_grid. -/
def LayerData.get_grid (l : LayerData) (b_type : BuildingType) : List (List Int) :=
  match b_type with
  | .Floor => l.floor_grid
  | .Wall => l.wall_grid
  | .Ceiling => l.ceiling_grid

/-- Write one category grid back (the code's get_grid_mut assignment). -/
def LayerData.set_grid (l : LayerData) (b_type : BuildingType) (g : List (List Int)) : LayerData :=
  match b_type with
  | .Floor => { l with floor_grid := g }
  | .Wall => { l with wall_grid := g }
  | .Ceiling => { l with ceiling_grid := g }

/-- models.rs LayerData::normalize: take() the legacy elevation_grid (so it
is consumed in every case) and move it into floor_grid only when floor_grid
is empty. -/
def LayerData.normalize (l : LayerData) : LayerData :=
  match l.elevation_grid with
  | none => l
  | some old_grid =>
    if l.floor_grid = [] then
      { l with floor_grid := old_grid, elevation_grid := none }
    else
      { l with elevation_grid := none }

/-- models.rs PlacedBuilding (display colour omitted: presentation only). -/
structure PlacedBuilding where
  uid : Nat
  template_name : String
  b_type : BuildingType
  grid_x : Nat
  grid_y : Nat
  width : Nat
  height : Nat
  wave_num : Int
  is_late : Bool
deriving DecidableEq

/-- models.rs UpgradeEvent. -/
structure UpgradeEvent where
  building_name : String
  wave_num : Int
  is_late : Bool
deriving DecidableEq

/-- models.rs DemolishEvent. -/
structure DemolishEvent where
  uid : Nat
  name : String
  grid_x : Nat
  grid_y : Nat
  width : Nat
  height : Nat
  wave_num : Int
  is_late : Bool
deriving DecidableEq

/-- models.rs BuildingExport: a building as read from a strategy JSON. -/
structure BuildingExport where
  uid : Nat
  name : String
  b_type : BuildingType
  grid_x : Nat
  grid_y : Nat
  width : Nat
  height : Nat
  wave_num : Int
  is_late : Bool
deriving DecidableEq

/-- models.rs MapBuildingsExport (strategy wire format). -/
structure MapBuildingsExport where
  map_name : String
  buildings : List BuildingExport
  upgrades : List UpgradeEvent
  demolishes : List DemolishEvent
deriving DecidableEq

/-- models.rs MapTerrainExport (terrain wire format; the meta block is
presentation-only data and is omitted). -/
structure MapTerrainExport where
  map_name : String
  layers : List LayerData
deriving DecidableEq

/-- app.rs MapEditor, restricted to the fields the placement, timeline and
layer logic reads or writes. -/
structure Editor where
  grid_rows : Nat
  grid_cols : Nat
  current_major_z : Int
  layers_data : List (Int × LayerData)
  placed_buildings : List PlacedBuilding
  next_uid : Nat
  current_wave_num : Int
  current_is_late : Bool
  upgrade_events : List UpgradeEvent
  demolish_events : List DemolishEvent
deriving DecidableEq

/-- HashMap::get on the layer map, modelled as association-list lookup. -/
def lookupLayer (m : List (Int × LayerData)) (k : Int) : Option LayerData :=
  match m with
  | [] => none
  | (k', v) :: rest => if k' = k then some v else lookupLayer rest k

/-- HashMap::insert on the layer map: replace the entry of an existing key,
or append a new entry. -/
def insertLayer (m : List (Int × LayerData)) (k : Int) (v : LayerData) : List (Int × LayerData) :=
  match m with
  | [] => [(k, v)]
  | (k', v') :: rest =>
    if k' = k then (k, v) :: rest else (k', v') :: insertLayer rest k v

/-- In-place mutation through HashMap::get_mut, modelled as updating the
first entry of the key. -/
def updateLayer (m : List (Int × LayerData)) (k : Int) (f : LayerData → LayerData) :
    List (Int × LayerData) :=
  match m with
  | [] => []
  | (k', v) :: rest =>
    if k' = k then (k', f v) :: rest else (k', v) :: updateLayer rest k f

/-- Double indexing grid[r][c]; none models the Rust index panic. -/
def gridGet (g : List (List Int)) (r c : Nat) : Option Int :=
  (g.get? r).bind (fun row => row.get? c)

/-- The editor's current timeline cursor as a time value. -/
def current_time (e : Editor) : Int :=
  get_time_value e.current_wave_num e.current_is_late

/-- app.rs get_building_demolish_time: the first DemolishEvent in list order
with a matching uid, or i32::MAX when none matches. -/
def get_building_demolish_time (e : Editor) (uid : Nat) : Int :=
  match e.demolish_events.find? (fun d => d.uid == uid) with
  | some d => get_time_value d.wave_num d.is_late
  | none => i32max

/-- The half-open activity interval test [create, demolish) that the code
re-derives at each site (placement blocking, demolish targeting, hover). -/
def is_active (e : Editor) (b : PlacedBuilding) (t : Int) : Bool :=
  decide (get_time_value b.wave_num b.is_late ≤ t) &&
  decide (t < get_building_demolish_time e b.uid)

/-- app.rs check_terrain_capability. -/
def check_terrain_capability (terrain_id : Int) (b_type : BuildingType) : Bool :=
  if terrain_id < 0 then false
  else
    match b_type with
    | .Floor => true
    | .Wall => true
    | .Ceiling => true

/-- The half-open 2-D footprint overlap test of can_place_building's
building loop. -/
def overlapB (start_r start_c w h : Nat) (b : PlacedBuilding) : Bool :=
  decide (start_c < b.grid_x + b.width) && decide (b.grid_x < start_c + w) &&
  decide (start_r < b.grid_y + b.height) && decide (b.grid_y < start_r + h)

/-- One iteration of can_place_building's loop over placed buildings:
true when b forces rejection. -/
def building_blocks (e : Editor) (start_r start_c w h : Nat) (b_type : BuildingType)
    (b : PlacedBuilding) : Bool :=
  if b.b_type ≠ b_type then false
  else if overlapB start_r start_c w h b then
    decide (get_time_value b.wave_num b.is_late ≤ current_time e) &&
    decide (current_time e < get_building_demolish_time e b.uid)
  else false

/-- The footprint rectangle's cells in the loop order of the code
(row-major from the origin). -/
def footprint_cells (start_r start_c w h : Nat) : List (Nat × Nat) :=
  (List.range h).flatMap (fun dr => (List.range w).map (fun dc => (start_r + dr, start_c + dc)))

/-- The per-cell body of can_place_building's footprint loop: same
elevation as the origin and terrain capability; none models an index
panic. -/
def check_cells (g : List (List Int)) (base_height : Int) (b_type : BuildingType) :
    List (Nat × Nat) → Option Bool
  | [] => some true
  | (r, c) :: rest =>
    match gridGet g r c with
    | none => none
    | some cell_h =>
      if cell_h ≠ base_height then some false
      else if check_terrain_capability cell_h b_type = false then some false
      else check_cells g base_height b_type rest

/-- app.rs can_place_building.  some true / some false are the code's
boolean results; none models a panic (missing layer entry or slice index
out of range). -/
def can_place_building (e : Editor) (start_r start_c w h : Nat) (b_type : BuildingType) :
    Option Bool :=
  if e.grid_rows < start_r + h ∨ e.grid_cols < start_c + w then some false
  else
    match lookupLayer e.layers_data e.current_major_z with
    | none => none
    | some layer =>
      if layer.get_grid b_type = [] then some false
      else
        match gridGet (layer.get_grid b_type) start_r start_c with
        | none => none
        | some base_height =>
          if base_height < 0 then some false
          else
            match check_cells (layer.get_grid b_type) base_height b_type
                (footprint_cells start_r start_c w h) with
            | none => none
            | some false => some false
            | some true =>
              if e.placed_buildings.any (building_blocks e start_r start_c w h b_type)
              then some false
              else some true

/-- Cell-containment test of the demolish-target and hover filters
(cursor coordinates are i32, hence Int). -/
def containsCellB (b : PlacedBuilding) (px py : Int) : Bool :=
  decide ((b.grid_x : Int) ≤ px) && decide (px < (b.grid_x : Int) + (b.width : Int)) &&
  decide ((b.grid_y : Int) ≤ py) && decide (py < (b.grid_y : Int) + (b.height : Int))

/-- The predicate of the Demolish-mode target search (app.rs 1240-1243). -/
def demolishTargetPred (e : Editor) (px py : Int) (b : PlacedBuilding) : Bool :=
  containsCellB b px py &&
  (decide (get_time_value b.wave_num b.is_late ≤ current_time e) &&
   decide (current_time e < get_building_demolish_time e b.uid))

/-- The Demolish-mode target: first placed building containing the cell and
active at the cursor. -/
def demolishTarget (e : Editor) (px py : Int) : Option PlacedBuilding :=
  e.placed_buildings.find? (demolishTargetPred e px py)

/-- The predicate of the hover-info filter (app.rs 1177-1181). -/
def hoverPred (e : Editor) (cx ry : Int) (b : PlacedBuilding) : Bool :=
  containsCellB b cx ry &&
  (decide (get_time_value b.wave_num b.is_late ≤ current_time e) &&
   decide (current_time e < get_building_demolish_time e b.uid))

/-- The hover-info building list. -/
def hovered_buildings (e : Editor) (cx ry : Int) : List PlacedBuilding :=
  e.placed_buildings.filter (hoverPred e cx ry)

/-- Vec::resize on a list: truncate to n, or pad at the end with pad. -/
def list_resize {α : Type} (l : List α) (n : Nat) (pad : α) : List α :=
  l.take n ++ List.replicate (n - l.length) pad

/-- One grid's treatment inside app.rs resize_grids: an empty grid is
allocated rows x cols of -1, otherwise rows are resized (padding with fresh
-1 rows) and then every row is resized to cols. -/
def resize_grid (g : List (List Int)) (rows cols : Nat) : List (List Int) :=
  if g = [] then List.replicate rows (List.replicate cols (-1))
  else (list_resize g rows (List.replicate cols (-1))).map (fun row => list_resize row cols (-1))

/-- app.rs resize_grids over every layer's three grids. -/
def resize_grids (e : Editor) : Editor :=
  { e with layers_data := e.layers_data.map (fun p =>
      (p.1, { p.2 with
        floor_grid := resize_grid p.2.floor_grid e.grid_rows e.grid_cols,
        wall_grid := resize_grid p.2.wall_grid e.grid_rows e.grid_cols,
        ceiling_grid := resize_grid p.2.ceiling_grid e.grid_rows e.grid_cols })) }

/-- List.set based write grid[r][c] = v (the code's guarded in-place write;
the guard dr < grid_rows, dc < grid_cols is applied by the caller). -/
def set_cell (g : List (List Int)) (r c : Nat) (v : Int) : List (List Int) :=
  g.set r (((g.get? r).getD []).set c v)

/-- The Terrain-mode brush loop (app.rs 1205-1209): every cell within
Chebyshev distance rad of (r, c) that lies inside the editor's row/col
bounds is written with v. -/
def paint_grid (g : List (List Int)) (rows cols : Nat) (r c : Int) (rad : Nat) (v : Int) :
    List (List Int) :=
  (List.range (2 * rad + 1)).foldl (fun g1 i =>
    (List.range (2 * rad + 1)).foldl (fun g2 j =>
      let dr := r - rad + i
      let dc := c - rad + j
      if 0 ≤ dr ∧ 0 ≤ dc ∧ dr < (rows : Int) ∧ dc < (cols : Int) then
        set_cell g2 dr.toNat dc.toNat v
      else g2) g1) g

/-- Terrain-mode painting of the current layer's selected grid. -/
def paint_at (e : Editor) (b_type : BuildingType) (r c : Int) (rad : Nat) (v : Int) : Editor :=
  { e with layers_data := updateLayer e.layers_data e.current_major_z (fun l =>
      l.set_grid b_type (paint_grid (l.get_grid b_type) e.grid_rows e.grid_cols r c rad v)) }

/-- Building-mode left click (app.rs 1221-1229): push a PlacedBuilding
snapshotting the template's footprint and the cursor, then advance
next_uid. -/
def place_building (e : Editor) (start_r start_c w h : Nat) (b_type : BuildingType)
    (template_name : String) : Editor :=
  { e with
    placed_buildings := e.placed_buildings ++
      [{ uid := e.next_uid, template_name := template_name, b_type := b_type,
         grid_x := start_c, grid_y := start_r, width := w, height := h,
         wave_num := e.current_wave_num, is_late := e.current_is_late }],
    next_uid := e.next_uid + 1 }

/-- Building-mode right click (app.rs 1230-1236): drop every building whose
footprint contains the clicked cell, then keep only demolish events whose
uid still names a remaining building. -/
def erase_at (e : Editor) (px py : Int) : Editor :=
  let remaining := e.placed_buildings.filter (fun b => !containsCellB b px py)
  { e with
    placed_buildings := remaining,
    demolish_events := e.demolish_events.filter (fun ev =>
      remaining.any (fun b => b.uid == ev.uid)) }

/-- The demolish-event list after a Demolish-mode left click at a cell
(app.rs 1244-1249): unchanged when no active building contains the cell or
when the target already has a demolish event, else one appended event
capturing the target and the cursor. -/
def demolish_events_after (e : Editor) (px py : Int) : List DemolishEvent :=
  match demolishTarget e px py with
  | none => e.demolish_events
  | some b =>
    if e.demolish_events.any (fun ev => ev.uid == b.uid) then e.demolish_events
    else e.demolish_events ++
      [{ uid := b.uid, name := b.template_name, grid_x := b.grid_x, grid_y := b.grid_y,
         width := b.width, height := b.height,
         wave_num := e.current_wave_num, is_late := e.current_is_late }]

/-- Demolish-mode left click. -/
def schedule_demolish_at (e : Editor) (px py : Int) : Editor :=
  { e with demolish_events := demolish_events_after e px py }

/-- Setting the wave cursor (the sidebar DragValue plus the late
checkbox). -/
def set_cursor (e : Editor) (wave : Int) (late : Bool) : Editor :=
  { e with current_wave_num := wave, current_is_late := late }

/-- Maximum of a uid list, Iterator::max style (none on an empty list). -/
def max_uid : List Nat → Option Nat
  | [] => none
  | x :: xs =>
    match max_uid xs with
    | none => some x
    | some m => some (max x m)

/-- A BuildingExport re-hydrated into a PlacedBuilding (colour lookup
dropped: presentation only). -/
def hydrate (b : BuildingExport) : PlacedBuilding :=
  { uid := b.uid, template_name := b.name, b_type := b.b_type,
    grid_x := b.grid_x, grid_y := b.grid_y, width := b.width, height := b.height,
    wave_num := b.wave_num, is_late := b.is_late }

/-- app.rs import_buildings applied to an already-parsed strategy file:
replace buildings and event lists, reseed next_uid to max uid + 1 (1000 + 1
when the file has no buildings). -/
def import_buildings (e : Editor) (data : MapBuildingsExport) : Editor :=
  let placed := data.buildings.map hydrate
  { e with
    placed_buildings := placed,
    next_uid := (max_uid (placed.map (fun b => b.uid))).getD 1000 + 1,
    upgrade_events := data.upgrades,
    demolish_events := data.demolishes }

/-- The layer loop of app.rs import_terrain: normalize each incoming layer,
track the last non-empty floor grid's dimensions, and insert by major_z
into the (cleared) layer map. -/
def import_layers_fold (layers : List LayerData)
    (init : List (Int × LayerData) × Nat × Nat) : List (Int × LayerData) × Nat × Nat :=
  layers.foldl (fun acc layer =>
    let l := layer.normalize
    let rows' := if l.floor_grid = [] then acc.2.1 else l.floor_grid.length
    let cols' := if l.floor_grid = [] then acc.2.2 else (l.floor_grid.headD []).length
    (insertLayer acc.1 l.major_z l, rows', cols')) init

/-- app.rs import_terrain applied to an already-parsed terrain file: clear
the layer map, run the layer loop, then resize_grids. -/
def import_terrain (e : Editor) (data : MapTerrainExport) : Editor :=
  let t := import_layers_fold data.layers ([], e.grid_rows, e.grid_cols)
  resize_grids { e with layers_data := t.1, grid_rows := t.2.1, grid_cols := t.2.2 }

/-- app.rs MapEditor::new: 40 x 40 grids of -1 on a default layer at
major_z = 0, uid allocator at 1000, cursor at wave 1. -/
def default_grid : List (List Int) := List.replicate 40 (List.replicate 40 (-1))

/-- The initial editor state built by MapEditor::new. -/
def init_editor : Editor :=
  { grid_rows := 40, grid_cols := 40, current_major_z := 0,
    layers_data := [(0,
      { major_z := 0, name := "Default Layer",
        floor_grid := default_grid, wall_grid := default_grid,
        ceiling_grid := default_grid, elevation_grid := none })],
    placed_buildings := [], next_uid := 1000,
    current_wave_num := 1, current_is_late := false,
    upgrade_events := [], demolish_events := [] }

/-- One editor transition driven by a UI event of the final snapshot.
Guards are the code's own conditions on the path to the mutation; a
constructor exists for every event that mutates the modelled state
(apply_preset is the composition of an import_terrain and an
import_buildings transition and has no constructor of its own). -/
inductive Step : Editor → Editor → Prop
  | set_cursor (e : Editor) (wave : Int) (late : Bool)
      (h1 : 1 ≤ wave) (h2 : wave ≤ 100) :
      Step e (set_cursor e wave late)
  | paint (e : Editor) (b_type : BuildingType) (r c : Int) (rad : Nat) (v : Int)
      (hlayer : (lookupLayer e.layers_data e.current_major_z).isSome = true)
      (hr : 0 ≤ r ∧ r < (e.grid_rows : Int)) (hc : 0 ≤ c ∧ c < (e.grid_cols : Int))
      (hrad : rad ≤ 10) (hv : -1 ≤ v ∧ v ≤ 3) :
      Step e (paint_at e b_type r c rad v)
  | place (e : Editor) (start_r start_c w h : Nat) (b_type : BuildingType)
      (template_name : String)
      (hcan : can_place_building e start_r start_c w h b_type = some true) :
      Step e (place_building e start_r start_c w h b_type template_name)
  | erase (e : Editor) (px py : Int) : Step e (erase_at e px py)
  | demolish (e : Editor) (px py : Int) : Step e (schedule_demolish_at e px py)
  | remove_demolish_event (e : Editor) (i : Nat) :
      Step e { e with demolish_events := e.demolish_events.eraseIdx i }
  | add_upgrade (e : Editor) (building_name : String) :
      Step e { e with upgrade_events := e.upgrade_events ++
        [{ building_name := building_name,
           wave_num := e.current_wave_num, is_late := e.current_is_late }] }
  | remove_upgrade_event (e : Editor) (i : Nat) :
      Step e { e with upgrade_events := e.upgrade_events.eraseIdx i }
  | set_grid_size (e : Editor) (rows cols : Nat) :
      Step e (resize_grids { e with grid_rows := rows, grid_cols := cols })
  | import_buildings (e : Editor) (data : MapBuildingsExport) :
      Step e (import_buildings e data)
  | import_terrain (e : Editor) (data : MapTerrainExport) :
      Step e (import_terrain e data)

/-- Editor states reachable from MapEditor::new through UI events. -/
inductive Reachable : Editor → Prop
  | init : Reachable init_editor
  | step {e e' : Editor} : Reachable e → Step e e' → Reachable e'

/-
Concrete states.  e_rows1 .. e_placed2 is a chain of UI events of the final
snapshot: shrink the grid to 1 x 1, paint the single floor cell to
elevation 0, place a 1 x 1 Floor building at wave 5, move the cursor back
to wave 1 and place a second 1 x 1 Floor building on the same cell.
-/

/-- After dragging the row count to 1 (resize_grids runs on change). -/
def e_rows1 : Editor := resize_grids { init_editor with grid_rows := 1, grid_cols := 40 }

/-- After dragging the column count to 1 as well. -/
def e_small : Editor := resize_grids { e_rows1 with grid_rows := 1, grid_cols := 1 }

/-- After painting cell (0, 0) of the floor grid with brush 0, radius 0. -/
def e_painted : Editor := paint_at e_small BuildingType.Floor 0 0 0 0

/-- After setting the wave cursor to wave 5 (time value 10). -/
def e_wave5 : Editor := set_cursor e_painted 5 false

/-- After placing a 1 x 1 Floor building at (0, 0): uid 1000, created at
wave 5. -/
def e_placed1 : Editor := place_building e_wave5 0 0 1 1 BuildingType.Floor "T"

/-- After moving the cursor back to wave 1 (time value 2). -/
def e_wave1 : Editor := set_cursor e_placed1 1 false

/-- After placing a second 1 x 1 Floor building on the same cell: uid 1001,
created at wave 1 — accepted because uid 1000 is not yet active at time
value 2. -/
def e_placed2 : Editor := place_building e_wave1 0 0 1 1 BuildingType.Floor "T"

/-- A strategy file whose demolish list holds two events for uid 5, the
later one (wave 10) first in list order. -/
def dup_demolish_data : MapBuildingsExport :=
  { map_name := "m", buildings := [], upgrades := [],
    demolishes :=
      [{ uid := 5, name := "A", grid_x := 0, grid_y := 0, width := 1, height := 1,
         wave_num := 10, is_late := false },
       { uid := 5, name := "A", grid_x := 0, grid_y := 0, width := 1, height := 1,
         wave_num := 3, is_late := false }] }

/-- The editor after importing dup_demolish_data. -/
def e_dup : Editor := import_buildings init_editor dup_demolish_data

/-- A terrain file whose only layer sits at major_z = 1 — no layer for the
editor's current_major_z = 0. -/
def no_zero_terrain : MapTerrainExport :=
  { map_name := "m",
    layers := [{ major_z := 1, name := "L1", floor_grid := [[0]], wall_grid := [],
                 ceiling_grid := [], elevation_grid := none }] }

/-- The editor after importing no_zero_terrain. -/
def e_no_zero : Editor := import_terrain init_editor no_zero_terrain

/-- A layer in the legacy single-grid wire format. -/
def legacy_layer : LayerData :=
  { major_z := 0, name := "legacy", floor_grid := [], wall_grid := [], ceiling_grid := [],
    elevation_grid := some [[0, 1], [2, -1]] }

/-- A layer that already has a floor grid and still carries a legacy
grid. -/
def occupied_layer : LayerData :=
  { major_z := 0, name := "L", floor_grid := [[2]], wall_grid := [[1]], ceiling_grid := [],
    elevation_grid := some [[9]] }

/-- A state with one placed building (uid 1 over cells (0,0)-(1,1)), a
demolish event for it and a dangling demolish event for uid 99. -/
def e_erase_demo : Editor :=
  { init_editor with
    placed_buildings :=
      [{ uid := 1, template_name := "T", b_type := BuildingType.Floor, grid_x := 0,
         grid_y := 0, width := 2, height := 2, wave_num := 1, is_late := false },
       { uid := 2, template_name := "T", b_type := BuildingType.Floor, grid_x := 5,
         grid_y := 5, width := 1, height := 1, wave_num := 1, is_late := false }],
    demolish_events :=
      [{ uid := 1, name := "T", grid_x := 0, grid_y := 0, width := 2, height := 2,
         wave_num := 2, is_late := false },
       { uid := 99, name := "T", grid_x := 0, grid_y := 0, width := 1, height := 1,
         wave_num := 2, is_late := false },
       { uid := 2, name := "T", grid_x := 5, grid_y := 5, width := 1, height := 1,
         wave_num := 3, is_late := true }] }

/-
Helper lemmas.
-/

/-- Every i32 value, in particular every get_time_value result, is at most
i32::MAX. -/
lemma i32wrap_le_max (x : Int) : i32wrap x ≤ i32max := by
  have h1 : 0 ≤ (x + 2147483648) % 4294967296 := Int.emod_nonneg _ (by norm_num)
  have h2 : (x + 2147483648) % 4294967296 < 4294967296 := Int.emod_lt_of_pos _ (by norm_num)
  unfold i32wrap i32max
  omega

/-- The two-placement chain is reachable through guarded UI events. -/
lemma reachable_e_placed2 : Reachable e_placed2 := by
  have h1 : Reachable e_rows1 := Reachable.init.step (Step.set_grid_size init_editor 1 40)
  have h2 : Reachable e_small := h1.step (Step.set_grid_size e_rows1 1 1)
  have h3 : Reachable e_painted := h2.step (Step.paint e_small BuildingType.Floor 0 0 0 0
    (by decide) (by decide) (by decide) (by decide) (by decide))
  have h4 : Reachable e_wave5 := h3.step
    (Step.set_cursor e_painted 5 false (by decide) (by decide))
  have h5 : Reachable e_placed1 := h4.step
    (Step.place e_wave5 0 0 1 1 BuildingType.Floor "T" (by decide))
  have h6 : Reachable e_wave1 := h5.step
    (Step.set_cursor e_placed1 1 false (by decide) (by decide))
  exact h6.step (Step.place e_wave1 0 0 1 1 BuildingType.Floor "T" (by decide))

/-- The duplicate-demolish-event state is reachable (one strategy import). -/
lemma reachable_e_dup : Reachable e_dup :=
  Reachable.init.step (Step.import_buildings init_editor dup_demolish_data)

/-- The layer-0-free state is reachable (one terrain import). -/
lemma reachable_e_no_zero : Reachable e_no_zero :=
  Reachable.init.step (Step.import_terrain init_editor no_zero_terrain)

/-- The building loop's body equals type match, footprint overlap and the
half-open activity test conjoined. -/
lemma building_blocks_eq (e : Editor) (start_r start_c w h : Nat) (b_type : BuildingType)
    (b : PlacedBuilding) :
    building_blocks e start_r start_c w h b_type b =
      (decide (b.b_type = b_type) && overlapB start_r start_c w h b &&
       is_active e b (current_time e)) := by
  unfold building_blocks is_active
  by_cases h1 : b.b_type = b_type
  · by_cases h2 : overlapB start_r start_c w h b = true
    · simp [h1, h2]
    · simp [h1, h2]
  · simp [h1]

/-- Inversion of can_place_building = some true: the path the code must
have taken to return true. -/
lemma can_place_true_inv (e : Editor) (start_r start_c w h : Nat) (b_type : BuildingType)
    (hcp : can_place_building e start_r start_c w h b_type = some true) :
    start_r + h ≤ e.grid_rows ∧ start_c + w ≤ e.grid_cols ∧
    ∃ layer, lookupLayer e.layers_data e.current_major_z = some layer ∧
      layer.get_grid b_type ≠ [] ∧
      ∃ base_height, gridGet (layer.get_grid b_type) start_r start_c = some base_height ∧
        ¬ base_height < 0 ∧
        check_cells (layer.get_grid b_type) base_height b_type
          (footprint_cells start_r start_c w h) = some true ∧
        e.placed_buildings.any (building_blocks e start_r start_c w h b_type) = false := by
  unfold can_place_building at hcp
  split at hcp
  · simp at hcp
  · rename_i hbounds
    push_neg at hbounds
    refine ⟨by omega, by omega, ?_⟩
    split at hcp
    · simp at hcp
    · rename_i layer hl
      refine ⟨layer, hl, ?_⟩
      split at hcp
      · simp at hcp
      · rename_i hne
        refine ⟨hne, ?_⟩
        split at hcp
        · simp at hcp
        · rename_i base_height hb
          refine ⟨base_height, hb, ?_⟩
          split at hcp
          · simp at hcp
          · rename_i hneg
            refine ⟨hneg, ?_⟩
            split at hcp
            · simp at hcp
            · simp at hcp
            · rename_i hck
              refine ⟨hck, ?_⟩
              split at hcp
              · simp at hcp
              · rename_i hany
                simpa using hany

/-- A footprint loop that returns some true saw every listed cell equal to
the origin's elevation. -/
lemma check_cells_sound (g : List (List Int)) (base_height : Int) (b_type : BuildingType) :
    ∀ cells, check_cells g base_height b_type cells = some true →
      ∀ p ∈ cells, gridGet g p.1 p.2 = some base_height := by
  intro cells
  induction cells with
  | nil => intro _ p hp; simp at hp
  | cons q rest ih =>
    intro hchk p hp
    obtain ⟨r, c⟩ := q
    unfold check_cells at hchk
    split at hchk
    · simp at hchk
    · rename_i cell_h hg
      split at hchk
      · simp at hchk
      · rename_i hcb
        split at hchk
        · simp at hchk
        · rcases List.mem_cons.mp hp with hpe | hpr
          · subst hpe
            simpa [hg] using congrArg some (Decidable.not_not.mp hcb)
          · exact ih hchk p hpr

/-- Every (dr, dc) offset inside the footprint appears in the footprint
cell list. -/
lemma mem_footprint_cells (start_r start_c w h dr dc : Nat) (hdr : dr < h) (hdc : dc < w) :
    (start_r + dr, start_c + dc) ∈ footprint_cells start_r start_c w h := by
  unfold footprint_cells
  simp only [List.mem_flatMap, List.mem_map, List.mem_range]
  exact ⟨dr, hdr, dc, hdc, rfl⟩

/-- find? returns the head of the first matching suffix. -/
lemma find?_append_first {α : Type} (p : α → Bool) (pre post : List α) (a : α)
    (hpre : ∀ x ∈ pre, p x = false) (ha : p a = true) :
    (pre ++ a :: post).find? p = some a := by
  induction pre with
  | nil => simp [List.find?, ha]
  | cons y ys ih =>
    have hy : p y = false := hpre y (List.mem_cons_self y ys)
    simp only [List.cons_append, List.find?, hy]
    exact ih (fun x hx => hpre x (List.mem_cons_of_mem y hx))

/-- Every member of a uid list is bounded by its max. -/
lemma le_max_uid (l : List Nat) (x : Nat) (hx : x ∈ l) :
    ∃ m, max_uid l = some m ∧ x ≤ m := by
  induction l with
  | nil => simp at hx
  | cons y ys ih =>
    rcases List.mem_cons.mp hx with rfl | hmem
    · cases hmu : max_uid ys with
      | none => exact ⟨x, by simp [max_uid, hmu], Nat.le_refl x⟩
      | some m => exact ⟨max x m, by simp [max_uid, hmu], Nat.le_max_left x m⟩
    · obtain ⟨m, hm, hle⟩ := ih hmem
      exact ⟨max y m, by simp [max_uid, hm], Nat.le_trans hle (Nat.le_max_right y m)⟩

/-- normalize consumes the legacy grid on first use, so a second call is
the identity. -/
lemma layer_normalize_idem (l : LayerData) : l.normalize.normalize = l.normalize := by
  cases h : l.elevation_grid with
  | none => simp [LayerData.normalize, h]
  | some g =>
    by_cases hf : l.floor_grid = []
    · simp [LayerData.normalize, h, hf]
    · simp [LayerData.normalize, h, hf]

/-
Claim theorems.
-/

/-- Claim C9: a layer carrying a legacy elevation grid G with an empty
floor grid normalizes to floor_grid = G with wall and ceiling left empty,
and normalize is idempotent. -/
theorem c9_normalize_migration (l : LayerData) (G : List (List Int))
    (hleg : l.elevation_grid = some G) (hfloor : l.floor_grid = [])
    (hwall : l.wall_grid = []) (hceil : l.ceiling_grid = []) :
    l.normalize.floor_grid = G ∧ l.normalize.wall_grid = [] ∧
    l.normalize.ceiling_grid = [] ∧ l.normalize.elevation_grid = none ∧
    l.normalize.normalize = l.normalize := by
  refine ⟨?_, ?_, ?_, ?_, layer_normalize_idem l⟩ <;>
    simp [LayerData.normalize, hleg, hfloor, hwall, hceil]

/-- Witness for C9 at a concrete legacy layer. -/
theorem c9_normalize_migration_witness :
    legacy_layer.normalize.floor_grid = [[0, 1], [2, -1]] ∧
    legacy_layer.normalize.wall_grid = [] ∧
    legacy_layer.normalize.ceiling_grid = [] ∧
    legacy_layer.normalize.elevation_grid = none ∧
    legacy_layer.normalize.normalize = legacy_layer.normalize :=
  c9_normalize_migration legacy_layer [[0, 1], [2, -1]] rfl rfl rfl rfl

/-- Claim C10: normalize always leaves elevation_grid = none — the legacy
grid is consumed even when the floor grid is non-empty, in which case it is
silently discarded and all three category grids are unchanged. -/
theorem c10_normalize_consumes_legacy (l : LayerData) :
    l.normalize.elevation_grid = none ∧
    (l.floor_grid ≠ [] →
      l.normalize.floor_grid = l.floor_grid ∧ l.normalize.wall_grid = l.wall_grid ∧
      l.normalize.ceiling_grid = l.ceiling_grid) := by
  cases h : l.elevation_grid with
  | none => simp [LayerData.normalize, h]
  | some g =>
    by_cases hf : l.floor_grid = []
    · simp [LayerData.normalize, h, hf]
    · simp [LayerData.normalize, h, hf]

/-- Witness for C10: a layer with a non-empty floor grid and a legacy grid
still pending. -/
theorem c10_normalize_consumes_legacy_witness :
    occupied_layer.normalize.elevation_grid = none ∧
    (occupied_layer.floor_grid ≠ [] →
      occupied_layer.normalize.floor_grid = occupied_layer.floor_grid ∧
      occupied_layer.normalize.wall_grid = occupied_layer.wall_grid ∧
      occupied_layer.normalize.ceiling_grid = occupied_layer.ceiling_grid) :=
  c10_normalize_consumes_legacy occupied_layer

/-- Claim C2: the placement-blocking test, the demolish-target test and the
hover test all factor through the one half-open activity rule
is_active(b, t) = (time_value(b) <= t AND t < demolition_time(b.uid)), and
a building is inactive exactly at its demolish boundary time. -/
theorem c2_single_activity_rule :
    ∀ (e : Editor) (b : PlacedBuilding) (start_r start_c w h : Nat) (b_type : BuildingType)
      (px py cx ry t : Int),
      building_blocks e start_r start_c w h b_type b =
        (decide (b.b_type = b_type) && overlapB start_r start_c w h b &&
         is_active e b (current_time e)) ∧
      demolishTargetPred e px py b = (containsCellB b px py && is_active e b (current_time e)) ∧
      hoverPred e cx ry b = (containsCellB b cx ry && is_active e b (current_time e)) ∧
      (is_active e b t = true ↔
        get_time_value b.wave_num b.is_late ≤ t ∧ t < get_building_demolish_time e b.uid) ∧
      is_active e b (get_building_demolish_time e b.uid) = false := by
  intro e b start_r start_c w h b_type px py cx ry t
  refine ⟨building_blocks_eq e start_r start_c w h b_type b, rfl, rfl, ?_, ?_⟩
  · simp [is_active]
  · simp [is_active]

/-- Claim C4 counterexample: with no demolish event for uid 5, the sentinel
i32::MAX is returned, yet time_value(1073741823, true) is also i32::MAX, so
the sentinel is not strictly greater than every representable time
value. -/
theorem c4_counterexample :
    init_editor.demolish_events = [] ∧
    get_building_demolish_time init_editor 5 = i32max ∧
    get_time_value 1073741823 true = i32max ∧
    ¬ get_building_demolish_time init_editor 5 > get_time_value 1073741823 true := by
  refine ⟨rfl, rfl, by decide, by decide⟩

/-- Claim C4 (amended): demolition_time(uid) is the time_value of the first
matching DemolishEvent in list order, or i32::MAX when none matches;
i32::MAX is an upper bound (not a strict one) of every representable time
value. -/
theorem c4_demolish_time_amended (e : Editor) (uid : Nat) :
    (e.demolish_events.find? (fun d => d.uid == uid) = none →
      get_building_demolish_time e uid = i32max) ∧
    (∀ d, e.demolish_events.find? (fun d => d.uid == uid) = some d →
      get_building_demolish_time e uid = get_time_value d.wave_num d.is_late) ∧
    (∀ wave late, get_time_value wave late ≤ i32max) := by
  refine ⟨fun hn => ?_, fun d hd => ?_, fun wave late => i32wrap_le_max _⟩
  · unfold get_building_demolish_time
    rw [hn]
  · unfold get_building_demolish_time
    rw [hd]

/-- Witness for the amended C4 on the initial state. -/
theorem c4_demolish_time_amended_witness :
    (init_editor.demolish_events.find? (fun d => d.uid == 5) = none →
      get_building_demolish_time init_editor 5 = i32max) ∧
    (∀ d, init_editor.demolish_events.find? (fun d => d.uid == 5) = some d →
      get_building_demolish_time init_editor 5 = get_time_value d.wave_num d.is_late) ∧
    (∀ wave late, get_time_value wave late ≤ i32max) :=
  c4_demolish_time_amended init_editor 5

/-- Claim C5 counterexample: a reachable state whose demolish list holds
two events for uid 5, where the value used operationally is 20 (the first
event in list order, wave 10) although the smallest matching time value is
6 (wave 3). -/
theorem c5_counterexample :
    Reachable e_dup ∧
    (∃ ev1 ∈ e_dup.demolish_events, ∃ ev2 ∈ e_dup.demolish_events,
      ev1.uid = 5 ∧ ev2.uid = 5 ∧
      get_time_value ev2.wave_num ev2.is_late < get_time_value ev1.wave_num ev1.is_late) ∧
    get_building_demolish_time e_dup 5 = 20 ∧
    (∀ ev ∈ e_dup.demolish_events, ev.uid = 5 → 6 ≤ get_time_value ev.wave_num ev.is_late) ∧
    get_building_demolish_time e_dup 5 ≠ 6 :=
  ⟨reachable_e_dup, by decide, by decide, by decide, by decide⟩

/-- Claim C5 (amended): when several DemolishEvents share a uid, the one
used operationally by demolition_time is the first in list order
(insertion order), regardless of its time value. -/
theorem c5_first_match_rule (e : Editor) (uid : Nat) (pre post : List DemolishEvent)
    (ev : DemolishEvent) (hsplit : e.demolish_events = pre ++ ev :: post)
    (hev : ev.uid = uid) (hpre : ∀ x ∈ pre, x.uid ≠ uid) :
    get_building_demolish_time e uid = get_time_value ev.wave_num ev.is_late := by
  unfold get_building_demolish_time
  rw [hsplit, find?_append_first _ pre post ev
    (fun x hx => by simpa using hpre x hx) (by simpa using hev)]

/-- Witness for the amended C5: on e_dup the first of the two uid-5 events
(wave 10) is the one used. -/
theorem c5_first_match_rule_witness :
    get_building_demolish_time e_dup 5 = get_time_value 10 false :=
  c5_first_match_rule e_dup 5 []
    [{ uid := 5, name := "A", grid_x := 0, grid_y := 0, width := 1, height := 1,
       wave_num := 3, is_late := false }]
    { uid := 5, name := "A", grid_x := 0, grid_y := 0, width := 1, height := 1,
      wave_num := 10, is_late := false }
    rfl rfl (by simp)

/-- Claim C1 counterexample: a state reachable through validated placements
(uid 1000 placed at wave 5, then uid 1001 placed on the same cell at wave 1,
accepted because uid 1000 is not yet active at time 2) holding two distinct
same-category buildings with intersecting footprints that are both active
at time value 10. -/
theorem c1_counterexample :
    Reachable e_placed2 ∧
    ∃ b1 ∈ e_placed2.placed_buildings, ∃ b2 ∈ e_placed2.placed_buildings,
      b1.uid ≠ b2.uid ∧ b1.b_type = b2.b_type ∧
      (b1.grid_x < b2.grid_x + b2.width ∧ b2.grid_x < b1.grid_x + b1.width ∧
       b1.grid_y < b2.grid_y + b2.height ∧ b2.grid_y < b1.grid_y + b1.height) ∧
      is_active e_placed2 b1 10 = true ∧ is_active e_placed2 b2 10 = true :=
  ⟨reachable_e_placed2, by decide⟩

/-- Claim C1 (amended): what the validated placement path does enforce is
pointwise at insertion time — a placement accepted by can_place_building
found every same-category footprint-intersecting existing building
inactive at the current cursor time. -/
theorem c1_insertion_time_guard (e : Editor) (start_r start_c w h : Nat)
    (b_type : BuildingType)
    (hcp : can_place_building e start_r start_c w h b_type = some true) :
    ∀ b ∈ e.placed_buildings, b.b_type = b_type →
      overlapB start_r start_c w h b = true →
      is_active e b (current_time e) = false := by
  obtain ⟨-, -, layer, -, -, base_height, -, -, -, hany⟩ :=
    can_place_true_inv e start_r start_c w h b_type hcp
  intro b hb hty hov
  by_contra hact
  have hbb : building_blocks e start_r start_c w h b_type b = true := by
    rw [building_blocks_eq]
    cases hia : is_active e b (current_time e) with
    | false => exact absurd hia hact
    | true => simp [hty, hov, hia]
  have hsome : e.placed_buildings.any (building_blocks e start_r start_c w h b_type) = true :=
    List.any_eq_true.mpr ⟨b, hb, hbb⟩
  rw [hany] at hsome
  exact Bool.false_ne_true hsome

/-- Witness for the amended C1: the second placement of the counterexample
chain is accepted, and indeed the one existing building (uid 1000, created
at wave 5) is inactive at the cursor time 2. -/
theorem c1_insertion_time_guard_witness :
    can_place_building e_wave1 0 0 1 1 BuildingType.Floor = some true ∧
    ∀ b ∈ e_wave1.placed_buildings, b.b_type = BuildingType.Floor →
      overlapB 0 0 1 1 b = true →
      is_active e_wave1 b (current_time e_wave1) = false :=
  ⟨by decide, c1_insertion_time_guard e_wave1 0 0 1 1 BuildingType.Floor (by decide)⟩

/-- Claim C3: can_place_building returns true only if the footprint lies in
bounds, the category grid is non-empty, the origin cell's elevation code is
non-negative and every footprint cell carries exactly the origin's
elevation code. -/
theorem c3_terrain_preconditions (e : Editor) (start_r start_c w h : Nat)
    (b_type : BuildingType)
    (hcp : can_place_building e start_r start_c w h b_type = some true) :
    start_r + h ≤ e.grid_rows ∧ start_c + w ≤ e.grid_cols ∧
    ∃ layer, lookupLayer e.layers_data e.current_major_z = some layer ∧
      layer.get_grid b_type ≠ [] ∧
      ∃ base_height, gridGet (layer.get_grid b_type) start_r start_c = some base_height ∧
        0 ≤ base_height ∧
        ∀ dr, dr < h → ∀ dc, dc < w →
          gridGet (layer.get_grid b_type) (start_r + dr) (start_c + dc) = some base_height := by
  obtain ⟨h1, h2, layer, hl, hne, base_height, hb, hneg, hcells, -⟩ :=
    can_place_true_inv e start_r start_c w h b_type hcp
  exact ⟨h1, h2, layer, hl, hne, base_height, hb, Int.not_lt.mp hneg,
    fun dr hdr dc hdc =>
      check_cells_sound (layer.get_grid b_type) base_height b_type _ hcells _
        (mem_footprint_cells start_r start_c w h dr dc hdr hdc)⟩

/-- Witness for C3: the accepted 1 x 1 placement on the painted cell. -/
theorem c3_terrain_preconditions_witness :
    can_place_building e_painted 0 0 1 1 BuildingType.Floor = some true ∧
    (0 + 1 ≤ e_painted.grid_rows ∧ 0 + 1 ≤ e_painted.grid_cols ∧
     ∃ layer, lookupLayer e_painted.layers_data e_painted.current_major_z = some layer ∧
       layer.get_grid BuildingType.Floor ≠ [] ∧
       ∃ base_height, gridGet (layer.get_grid BuildingType.Floor) 0 0 = some base_height ∧
         0 ≤ base_height ∧
         ∀ dr, dr < 1 → ∀ dc, dc < 1 →
           gridGet (layer.get_grid BuildingType.Floor) (0 + dr) (0 + dc) = some base_height) :=
  ⟨by decide, c3_terrain_preconditions e_painted 0 0 1 1 BuildingType.Floor (by decide)⟩

/-- Claim C7: after the Building-mode right-click erase, no demolish event
references an absent uid (so erasing a building cascades to its events),
and every event whose uid still names a surviving building is kept. -/
theorem c7_erase_cascade (e : Editor) (px py : Int) :
    (∀ ev ∈ (erase_at e px py).demolish_events,
      ∃ b ∈ (erase_at e px py).placed_buildings, b.uid = ev.uid) ∧
    (∀ U, (∀ b ∈ (erase_at e px py).placed_buildings, b.uid ≠ U) →
      ∀ ev ∈ (erase_at e px py).demolish_events, ev.uid ≠ U) ∧
    (∀ ev ∈ e.demolish_events,
      (∃ b ∈ (erase_at e px py).placed_buildings, b.uid = ev.uid) →
      ev ∈ (erase_at e px py).demolish_events) := by
  refine ⟨?_, ?_, ?_⟩
  · intro ev hev
    simp only [erase_at, List.mem_filter, List.any_eq_true, beq_iff_eq] at hev ⊢
    exact hev.2
  · intro U hnone ev hev hU
    simp only [erase_at, List.mem_filter, List.any_eq_true, beq_iff_eq] at hev
    obtain ⟨b, hbmem, hbeq⟩ := hev.2
    exact hnone b (by simpa [erase_at] using hbmem) (hU ▸ hbeq)
  · intro ev hev hex
    simp only [erase_at, List.mem_filter, List.any_eq_true, beq_iff_eq] at hex ⊢
    exact ⟨hev, hex⟩

/-- Witness for C7: erasing the 2 x 2 building (uid 1) at cell (0, 0)
removes its event and the already-dangling uid-99 event and keeps the
uid-2 event of the surviving building. -/
theorem c7_erase_cascade_witness :
    (∀ ev ∈ (erase_at e_erase_demo 0 0).demolish_events,
      ∃ b ∈ (erase_at e_erase_demo 0 0).placed_buildings, b.uid = ev.uid) ∧
    (∀ U, (∀ b ∈ (erase_at e_erase_demo 0 0).placed_buildings, b.uid ≠ U) →
      ∀ ev ∈ (erase_at e_erase_demo 0 0).demolish_events, ev.uid ≠ U) ∧
    (∀ ev ∈ e_erase_demo.demolish_events,
      (∃ b ∈ (erase_at e_erase_demo 0 0).placed_buildings, b.uid = ev.uid) →
      ev ∈ (erase_at e_erase_demo 0 0).demolish_events) :=
  c7_erase_cascade e_erase_demo 0 0

/-- Claim C8: the code violates the always-present-default-layer invariant:
importing a terrain file whose layers omit major_z = 0 yields a reachable
state where the lookup that can_place_building and the render loop unwrap
has no entry for current_major_z. -/
theorem c8_missing_layer_after_import :
    Reachable e_no_zero ∧ e_no_zero.current_major_z = 0 ∧
    lookupLayer e_no_zero.layers_data e_no_zero.current_major_z = none :=
  ⟨reachable_e_no_zero, by decide, by decide⟩

/-- Claim C6: in every reachable editor state, every placed building's uid
is strictly below next_uid, so an allocation (which hands out next_uid and
increments it) always yields a uid strictly greater than every existing
one; imports reseed the allocator to max existing uid + 1 (1001 when the
imported file has no buildings). -/
theorem c6_uid_monotonic (e : Editor) (hreach : Reachable e) :
    ∀ b ∈ e.placed_buildings, b.uid < e.next_uid := by
  induction hreach with
  | init => intro b hb; simp [init_editor] at hb
  | @step e1 e2 hprev hstep ih =>
    cases hstep with
    | set_cursor wave late h1 h2 => exact ih
    | paint b_type r c rad v hlayer hr hc hrad hv => exact ih
    | place start_r start_c w h b_type template_name hcan =>
      intro b hb
      simp only [place_building, List.mem_append, List.mem_singleton] at hb
      simp only [place_building]
      rcases hb with hb | hb
      · exact Nat.lt_succ_of_lt (ih b hb)
      · rw [hb]; exact Nat.lt_succ_self _
    | erase px py =>
      intro b hb
      have hb' : b ∈ e1.placed_buildings.filter (fun x => !containsCellB x px py) := hb
      exact ih b (List.mem_of_mem_filter hb')
    | demolish px py => exact ih
    | remove_demolish_event i => exact ih
    | add_upgrade building_name => exact ih
    | remove_upgrade_event i => exact ih
    | set_grid_size rows cols => exact ih
    | import_buildings data =>
      intro b hb
      simp only [import_buildings] at hb ⊢
      obtain ⟨m, hm, hle⟩ :=
        le_max_uid ((data.buildings.map hydrate).map (fun x => x.uid)) b.uid
          (List.mem_map_of_mem (fun x => x.uid) hb)
      rw [hm, Option.getD_some]
      exact Nat.lt_succ_of_le hle
    | import_terrain data => exact ih

/-- Witness for C6 at the reachable two-building state: both uids are
below the allocator. -/
theorem c6_uid_monotonic_witness :
    Reachable e_placed2 ∧ ∀ b ∈ e_placed2.placed_buildings, b.uid < e_placed2.next_uid :=
  ⟨reachable_e_placed2, c6_uid_monotonic e_placed2 reachable_e_placed2⟩
